import Mathlib

/-!
Shallow embedding of the speed_camera core pipeline:
`src/models/detection_result.py`, `src/services/coordinate_crossing_detector.py`,
`src/services/speed_calculator.py`, `src/services/car_tracker.py`.

Python ints become `Int`; Python floats (confidences, distances, speeds)
become `ℚ`; Python `None` becomes `Option`; a raised exception becomes
`Except.error`.  Mutation of a `TrackedCar` is explicit state passing:
`detect_crossings` returns the updated car together with its result.
-/

/-- `BoundingBox` dataclass from `src/models/detection_result.py`. -/
structure BoundingBox where
  x1 : Int
  y1 : Int
  x2 : Int
  y2 : Int
deriving Repr, DecidableEq

/-- `BoundingBox.width` property: `x2 - x1`. -/
def BoundingBox.width (b : BoundingBox) : Int := b.x2 - b.x1

/-- `BoundingBox.height` property: `y2 - y1`. -/
def BoundingBox.height (b : BoundingBox) : Int := b.y2 - b.y1

/-- `DetectionResult` dataclass from `src/models/detection_result.py`. -/
structure DetectionResult where
  frame_number : Int
  bounding_box : BoundingBox
  confidence : ℚ
  class_id : Int
  class_name : String
deriving Repr, DecidableEq

/-- `TrackedCar` dataclass from `src/models/detection_result.py`. -/
structure TrackedCar where
  track_id : Int
  detections : List DetectionResult := []
  first_detection_frame : Option Int := none
  last_detection_frame : Option Int := none
  left_crossing_frame : Option Int := none
  right_crossing_frame : Option Int := none
deriving Repr, DecidableEq

/-- `TrackedCar.add_detection`: append the detection and update the
first/last detection frame bookkeeping from the detection's own
`frame_number` field. -/
def TrackedCar.add_detection (car : TrackedCar) (detection : DetectionResult) : TrackedCar :=
  { car with
    detections := car.detections ++ [detection]
    first_detection_frame :=
      match car.first_detection_frame with
      | none => some detection.frame_number
      | some f => some f
    last_detection_frame := some detection.frame_number }

/-- `TrackedCar.is_complete`: both crossing frames set. -/
def TrackedCar.is_complete (car : TrackedCar) : Bool :=
  car.left_crossing_frame.isSome && car.right_crossing_frame.isSome

/-- `CoordinateCrossingEvent` dataclass from `src/models/detection_result.py`.
Note its fifth field is declared `car_center_x` there. -/
structure CoordinateCrossingEvent where
  track_id : Int
  frame_number : Int
  coordinate_type : String
  coordinate_value : Int
  car_center_x : Int
  confidence : ℚ
deriving Repr, DecidableEq

/-- The field names of the `CoordinateCrossingEvent` dataclass, in declaration
order; these are exactly the keyword names its generated constructor accepts. -/
def coordinateCrossingEventFields : List String :=
  ["track_id", "frame_number", "coordinate_type", "coordinate_value",
   "car_center_x", "confidence"]

/-- The keyword names supplied at both event-construction sites inside
`CoordinateCrossingDetector.detect_crossings` (the fifth keyword is
`car_rightmost_x`). -/
def detectCrossingsEventKeywords : List String :=
  ["track_id", "frame_number", "coordinate_type", "coordinate_value",
   "car_rightmost_x", "confidence"]

/-- The constructor call
`CoordinateCrossingEvent(track_id=…, frame_number=…, coordinate_type=…,
coordinate_value=…, car_rightmost_x=…, confidence=…)` appearing in
`detect_crossings`.  A Python dataclass constructor accepts exactly the
dataclass's field names as keywords, so the call succeeds only when the
supplied keyword list matches the field list; a mismatched keyword raises
`TypeError`. -/
def mkEventRightmost (track_id frame_number : Int) (coordinate_type : String)
    (coordinate_value car_rightmost_x : Int) (confidence : ℚ) :
    Except String CoordinateCrossingEvent :=
  if detectCrossingsEventKeywords = coordinateCrossingEventFields then
    Except.ok
      { track_id := track_id
        frame_number := frame_number
        coordinate_type := coordinate_type
        coordinate_value := coordinate_value
        car_center_x := car_rightmost_x
        confidence := confidence }
  else
    Except.error "TypeError: unexpected keyword argument car_rightmost_x"

/-- `CoordinateCrossingDetector` from
`src/services/coordinate_crossing_detector.py`: holds the two configured
line coordinates. -/
structure CoordinateCrossingDetector where
  left_coordinate : Int
  right_coordinate : Int
deriving Repr, DecidableEq

/-- The left-coordinate section of `detect_crossings` (lines 68–83 of the
source): runs only while `left_crossing_frame is None`; fires on the
transition `previous x2 < left_coordinate ∧ current x2 ≥ left_coordinate`,
setting `left_crossing_frame` and then constructing the event. -/
def leftCheck (self : CoordinateCrossingDetector) (car : TrackedCar)
    (frame_number car_rightmost_x : Int) (previous_rightmost_x : Option Int)
    (confidence : ℚ) : TrackedCar × Except String (List CoordinateCrossingEvent) :=
  match car.left_crossing_frame with
  | some _ => (car, Except.ok [])
  | none =>
    match previous_rightmost_x with
    | none => (car, Except.ok [])
    | some p =>
      if p < self.left_coordinate ∧ self.left_coordinate ≤ car_rightmost_x then
        let car1 := { car with left_crossing_frame := some frame_number }
        match mkEventRightmost car.track_id frame_number "left"
            self.left_coordinate car_rightmost_x confidence with
        | Except.error e => (car1, Except.error e)
        | Except.ok ev => (car1, Except.ok [ev])
      else (car, Except.ok [])

/-- The right-coordinate section of `detect_crossings` (lines 151–166 of the
source): runs only once `left_crossing_frame is not None` and
`right_crossing_frame is None`; same transition test against
`right_coordinate`. -/
def rightCheck (self : CoordinateCrossingDetector) (car : TrackedCar)
    (frame_number car_rightmost_x : Int) (previous_rightmost_x : Option Int)
    (confidence : ℚ) : TrackedCar × Except String (List CoordinateCrossingEvent) :=
  if car.left_crossing_frame.isSome ∧ car.right_crossing_frame = none then
    match previous_rightmost_x with
    | none => (car, Except.ok [])
    | some p =>
      if p < self.right_coordinate ∧ self.right_coordinate ≤ car_rightmost_x then
        let car1 := { car with right_crossing_frame := some frame_number }
        match mkEventRightmost car.track_id frame_number "right"
            self.right_coordinate car_rightmost_x confidence with
        | Except.error e => (car1, Except.error e)
        | Except.ok ev => (car1, Except.ok [ev])
      else (car, Except.ok [])
  else (car, Except.ok [])

/-- `CoordinateCrossingDetector.detect_crossings`.  Returns the updated car
together with either the list of events detected in this call or the
exception that escaped it (any exception propagates immediately, leaving
whatever state mutations already happened in place). -/
def CoordinateCrossingDetector.detect_crossings (self : CoordinateCrossingDetector)
    (tracked_car : TrackedCar) (frame_number : Int) :
    TrackedCar × Except String (List CoordinateCrossingEvent) :=
  match tracked_car.detections.getLast? with
  | none => (tracked_car, Except.ok [])
  | some latest_detection =>
    let car_rightmost_x := latest_detection.bounding_box.x2
    let previous_rightmost_x : Option Int :=
      if 1 < tracked_car.detections.length then
        (tracked_car.detections.dropLast.getLast?).map fun d => d.bounding_box.x2
      else none
    match leftCheck self tracked_car frame_number car_rightmost_x
        previous_rightmost_x latest_detection.confidence with
    | (car1, Except.error e) => (car1, Except.error e)
    | (car1, Except.ok evs1) =>
      match rightCheck self car1 frame_number car_rightmost_x
          previous_rightmost_x latest_detection.confidence with
      | (car2, Except.error e) => (car2, Except.error e)
      | (car2, Except.ok evs2) => (car2, Except.ok (evs1 ++ evs2))

/-- One pipeline step on a tracked identity: appending this step's detections
to the car and then calling `detect_crossings` with this step's frame number
(the state the car is left in, whether or not the call raised). -/
def crossingStep (self : CoordinateCrossingDetector) (car : TrackedCar)
    (step : List DetectionResult × Int) : TrackedCar :=
  (self.detect_crossings (step.1.foldl TrackedCar.add_detection car) step.2).1

/-- A sequence of `detect_crossings` calls on one identity, each preceded by
the detections recorded for that call. -/
def runCrossings (self : CoordinateCrossingDetector) (car : TrackedCar)
    (steps : List (List DetectionResult × Int)) : TrackedCar :=
  steps.foldl (crossingStep self) car

/-- `Configuration` dataclass from `src/models/config.py` (the fields the
core pipeline reads). -/
structure Configuration where
  left_coordinate : Int
  right_coordinate : Int
  distance : ℚ
  fps : ℚ
  downsize_video : Option Int := none
deriving Repr, DecidableEq

/-- `SpeedMeasurement` dataclass from `src/models/detection_result.py`. -/
structure SpeedMeasurement where
  speed_kmh : ℚ
  speed_ms : ℚ
  frame_count : Int
  time_seconds : ℚ
  distance_meters : ℚ
  left_crossing_frame : Int
  right_crossing_frame : Int
  track_id : Int
  confidence : ℚ
  is_valid : Bool
deriving Repr, DecidableEq

/-- `SpeedMeasurement.__post_init__` validation: when `is_valid`, requires
`frame_count > 0`, `time_seconds > 0` and `speed_kmh ≥ 0`, raising
`ValueError` otherwise. -/
def SpeedMeasurement.post_init (m : SpeedMeasurement) : Except String SpeedMeasurement :=
  if m.is_valid = false then Except.ok m
  else if m.frame_count ≤ 0 then
    Except.error "ValueError: frame_count must be > 0 for valid measurement"
  else if m.time_seconds ≤ 0 then
    Except.error "ValueError: time_seconds must be > 0 for valid measurement"
  else if m.speed_kmh < 0 then
    Except.error "ValueError: speed_kmh must be >= 0"
  else Except.ok m

/-- `SpeedCalculator` from `src/services/speed_calculator.py`: the
constructor stores `config.distance / 100.0` (cm to meters) and
`config.fps`. -/
structure SpeedCalculator where
  distance_meters : ℚ
  fps : ℚ
deriving Repr, DecidableEq

/-- `SpeedCalculator.__init__` applied to a configuration. -/
def SpeedCalculator.ofConfig (config : Configuration) : SpeedCalculator :=
  { distance_meters := config.distance / 100, fps := config.fps }

/-- `SpeedCalculator.calculate`: rejects `frame_count ≤ 0` and
`time_seconds ≤ 0`, computes `speed_ms = distance_meters / time_seconds`
and `speed_kmh = speed_ms * 3.6`, and builds the measurement (whose own
`__post_init__` validation may also raise). -/
def SpeedCalculator.calculate (self : SpeedCalculator)
    (left_crossing_frame right_crossing_frame track_id : Int) (confidence : ℚ) :
    Except String SpeedMeasurement :=
  let frame_count := right_crossing_frame - left_crossing_frame
  if frame_count ≤ 0 then
    Except.error "ValueError: frame_count must be > 0"
  else
    let time_seconds : ℚ := (frame_count : ℚ) / self.fps
    if time_seconds ≤ 0 then
      Except.error "ValueError: time_seconds must be > 0"
    else
      let speed_ms := self.distance_meters / time_seconds
      let speed_kmh := speed_ms * (36 / 10)
      SpeedMeasurement.post_init
        { speed_kmh := speed_kmh
          speed_ms := speed_ms
          frame_count := frame_count
          time_seconds := time_seconds
          distance_meters := self.distance_meters
          left_crossing_frame := left_crossing_frame
          right_crossing_frame := right_crossing_frame
          track_id := track_id
          confidence := confidence
          is_valid := true }

/-- `SpeedCalculator.calculate_from_tracked_car`: rejects a car that is not
`is_complete()`, rejects `right_crossing_frame ≤ left_crossing_frame`, then
averages the confidences of the car's detections and delegates to
`calculate`. -/
def SpeedCalculator.calculate_from_tracked_car (self : SpeedCalculator)
    (tracked_car : TrackedCar) : Except String SpeedMeasurement :=
  match tracked_car.left_crossing_frame, tracked_car.right_crossing_frame with
  | some l, some r =>
    if r ≤ l then
      Except.error "ValueError: Right crossing frame must be greater than left crossing frame"
    else
      let avg_confidence : ℚ :=
        if tracked_car.detections.isEmpty then 0
        else (tracked_car.detections.map DetectionResult.confidence).sum /
          (tracked_car.detections.length : ℚ)
      self.calculate l r tracked_car.track_id avg_confidence
  | _, _ => Except.error "ValueError: TrackedCar must have crossed both coordinates"

/-- `calculate_iou` from `src/services/car_tracker.py`: intersection over
union of the two detections' bounding boxes, `0.0` when the intersecting
rectangle is empty or the union area is `0`. -/
def calculate_iou (box1 box2 : DetectionResult) : ℚ :=
  let bbox1 := box1.bounding_box
  let bbox2 := box2.bounding_box
  let x1 := max bbox1.x1 bbox2.x1
  let y1 := max bbox1.y1 bbox2.y1
  let x2 := min bbox1.x2 bbox2.x2
  let y2 := min bbox1.y2 bbox2.y2
  if x2 ≤ x1 ∨ y2 ≤ y1 then 0
  else
    let intersection := (x2 - x1) * (y2 - y1)
    let area1 := bbox1.width * bbox1.height
    let area2 := bbox2.width * bbox2.height
    let union := area1 + area2 - intersection
    if union = 0 then 0
    else (intersection : ℚ) / (union : ℚ)

/-- `CarTracker` from `src/services/car_tracker.py`.  The `tracked_cars`
dict (Python dicts preserve insertion order) is an insertion-ordered
association list. -/
structure CarTracker where
  iou_threshold : ℚ
  tracked_cars : List (Int × TrackedCar)
  next_track_id : Int
deriving Repr, DecidableEq

/-- `CarTracker.__init__`. -/
def CarTracker.init (iou_threshold : ℚ) : CarTracker :=
  { iou_threshold := iou_threshold, tracked_cars := [], next_track_id := 1 }

/-- The IoU with which an entry of the registry competes in the inner scan
of `update`, for a given incoming detection and set of already-matched
track ids: `0` stands for an entry that is skipped (already matched this
frame, or with no detections) as well as for a true zero overlap — neither
can ever become the best candidate, since the scan starts from
`best_iou = 0.0` and only replaces on a strictly greater IoU. -/
def candIou (detection : DetectionResult) (matched : List Int)
    (p : Int × TrackedCar) : ℚ :=
  if p.1 ∈ matched then 0
  else
    match p.2.detections.getLast? with
    | none => 0
    | some last_detection => calculate_iou detection last_detection

/-- The inner best-candidate scan of `CarTracker.update` (lines 79–95 of the
source): iterate the registry in insertion order, skip already-matched
tracks and detection-less tracks, and replace the running best only when
`iou > best_iou and iou >= iou_threshold`. -/
def findBestAux (iou_threshold : ℚ) (detection : DetectionResult)
    (matched : List Int) (best_iou : ℚ) (best_track_id : Option Int) :
    List (Int × TrackedCar) → ℚ × Option Int
  | [] => (best_iou, best_track_id)
  | (track_id, tracked_car) :: rest =>
    if track_id ∈ matched then
      findBestAux iou_threshold detection matched best_iou best_track_id rest
    else
      match tracked_car.detections.getLast? with
      | none => findBestAux iou_threshold detection matched best_iou best_track_id rest
      | some last_detection =>
        let iou := calculate_iou detection last_detection
        if best_iou < iou ∧ iou_threshold ≤ iou then
          findBestAux iou_threshold detection matched iou (some track_id) rest
        else
          findBestAux iou_threshold detection matched best_iou best_track_id rest

/-- `self.tracked_cars[best_track_id].add_detection(detection)`: update the
matched registry entry in place. -/
def updateEntry (l : List (Int × TrackedCar)) (track_id : Int)
    (detection : DetectionResult) : List (Int × TrackedCar) :=
  l.map fun p => if p.1 = track_id then (p.1, p.2.add_detection detection) else p

/-- The matching loop of `update`: for each detection (in order, identified
by its position in the list, which stands for Python object identity),
find the best not-yet-matched track; on a match, add the detection to it
and record both the track and the detection as matched. -/
def matchLoop (iou_threshold : ℚ) :
    List (Nat × DetectionResult) →
    List (Int × TrackedCar) × List Int × List Nat →
    List (Int × TrackedCar) × List Int × List Nat
  | [], st => st
  | (i, detection) :: rest, (cars, matched_tracks, matched_detections) =>
    match (findBestAux iou_threshold detection matched_tracks 0 none cars).2 with
    | none =>
      matchLoop iou_threshold rest (cars, matched_tracks, matched_detections)
    | some best_track_id =>
      matchLoop iou_threshold rest
        (updateEntry cars best_track_id detection,
         best_track_id :: matched_tracks, i :: matched_detections)

/-- A fresh `TrackedCar(track_id=…)` with all defaulted fields. -/
def mkTrackedCar (track_id : Int) : TrackedCar :=
  { track_id := track_id }

/-- The new-track loop of `update`: every detection not recorded as matched
spawns a new track under `next_track_id`, which is then incremented. -/
def newTrackLoop (matched_detections : List Nat) :
    List (Nat × DetectionResult) →
    List (Int × TrackedCar) × Int →
    List (Int × TrackedCar) × Int
  | [], st => st
  | (i, detection) :: rest, (cars, next_track_id) =>
    if i ∈ matched_detections then
      newTrackLoop matched_detections rest (cars, next_track_id)
    else
      newTrackLoop matched_detections rest
        (cars ++ [(next_track_id, (mkTrackedCar next_track_id).add_detection detection)],
         next_track_id + 1)

/-- `CarTracker.update`: empty input returns the current registry values;
otherwise run the matching loop and then the new-track loop, and return the
updated tracker together with all registry values. -/
def CarTracker.update (self : CarTracker) (detections : List DetectionResult)
    (frame_number : Int) : CarTracker × List TrackedCar :=
  if detections.isEmpty then (self, self.tracked_cars.map Prod.snd)
  else
    let enum := detections.enum
    let st1 := matchLoop self.iou_threshold enum (self.tracked_cars, [], [])
    let st2 := newTrackLoop st1.2.2 enum (st1.1, self.next_track_id)
    ({ self with tracked_cars := st2.1, next_track_id := st2.2 },
     st2.1.map Prod.snd)

/-- A sequence of `update` calls on one tracker instance. -/
def runUpdates (tracker : CarTracker)
    (steps : List (List DetectionResult × Int)) : CarTracker :=
  steps.foldl (fun t s => (t.update s.1 s.2).1) tracker

/-- The integers from `a` (inclusive) to `b` (exclusive), in order. -/
def intRange (a b : Int) : List Int :=
  (List.range (b - a).toNat).map fun (i : Nat) => a + (i : Int)

/-! Concrete fixtures, taken from the repository's unit tests
(`tests/unit/test_coordinate_crossing.py`, `tests/unit/test_speed_calculator.py`,
`tests/unit/test_tracker.py`). -/

/-- Detection at frame 0 with box right edge `x2 = 90` (left of the line at 100). -/
def dLow : DetectionResult := ⟨0, ⟨50, 200, 90, 400⟩, 85/100, 2, "car"⟩

/-- Detection at frame 1 with box right edge `x2 = 110` (at or past the line at 100). -/
def dHigh : DetectionResult := ⟨1, ⟨100, 200, 110, 400⟩, 87/100, 2, "car"⟩

/-- Detection at frame 2 with box right edge `x2 = 490` (left of the line at 500). -/
def dMid : DetectionResult := ⟨2, ⟨400, 200, 490, 400⟩, 8/10, 2, "car"⟩

/-- Detection at frame 3 with box right edge `x2 = 510` (past the line at 500). -/
def dPast : DetectionResult := ⟨3, ⟨450, 200, 510, 400⟩, 8/10, 2, "car"⟩

/-- Detection spatially disjoint from `dLow`'s box. -/
def dFar : DetectionResult := ⟨0, ⟨1000, 1000, 1100, 1100⟩, 9/10, 2, "car"⟩

/-- Detector configured with lines at 100 and 500. -/
def detector100_500 : CoordinateCrossingDetector := ⟨100, 500⟩

/-- A track that saw `dLow` then `dHigh`: the left-transition input of
`test_detect_left_crossing_transition`. -/
def tcar1 : TrackedCar := ((mkTrackedCar 1).add_detection dLow).add_detection dHigh

/-- A track that already crossed left at frame 1 and then saw `dMid`, `dPast`. -/
def tcarR : TrackedCar :=
  { track_id := 1
    detections := [dMid, dPast]
    left_crossing_frame := some 1 }

/-- A track with both crossing frames already recorded. -/
def carBoth : TrackedCar :=
  { track_id := 2, left_crossing_frame := some 3, right_crossing_frame := some 5 }

/-- Configuration of the speed-calculator round-trip test:
distance 200 cm, 30 fps. -/
def config200_30 : Configuration := ⟨100, 500, 200, 30, none⟩

/-- A track whose crossing frames are out of order (right before left). -/
def carBad : TrackedCar :=
  { track_id := 4, left_crossing_frame := some 5, right_crossing_frame := some 2 }

/-- A degenerate detection: zero-width box. -/
def dDeg : DetectionResult := ⟨0, ⟨5, 5, 5, 9⟩, 1, 2, "car"⟩

/-! Lemmas about the embedded crossing detector. -/

/-- Both event-construction sites in `detect_crossings` supply the keyword
`car_rightmost_x`, which is not a field of the `CoordinateCrossingEvent`
dataclass (its fifth field is `car_center_x`), so the constructor call
always raises `TypeError`. -/
theorem mkEventRightmost_error (a b : Int) (ty : String) (v x : Int) (c : ℚ) :
    mkEventRightmost a b ty v x c =
      Except.error "TypeError: unexpected keyword argument car_rightmost_x" := by
  simp [mkEventRightmost, detectCrossingsEventKeywords, coordinateCrossingEventFields]

theorem leftCheck_left_some (self : CoordinateCrossingDetector) (car : TrackedCar)
    (n x : Int) (p : Option Int) (c : ℚ) (f : Int)
    (h : car.left_crossing_frame = some f) :
    leftCheck self car n x p c = (car, Except.ok []) := by
  simp [leftCheck, h]

theorem leftCheck_prev_none (self : CoordinateCrossingDetector) (car : TrackedCar)
    (n x : Int) (c : ℚ) :
    leftCheck self car n x none c = (car, Except.ok []) := by
  unfold leftCheck
  cases car.left_crossing_frame <;> rfl

theorem rightCheck_prev_none (self : CoordinateCrossingDetector) (car : TrackedCar)
    (n x : Int) (c : ℚ) :
    rightCheck self car n x none c = (car, Except.ok []) := by
  unfold rightCheck
  split <;> rfl

theorem rightCheck_right_some (self : CoordinateCrossingDetector) (car : TrackedCar)
    (n x : Int) (p : Option Int) (c : ℚ) (f : Int)
    (h : car.right_crossing_frame = some f) :
    rightCheck self car n x p c = (car, Except.ok []) := by
  simp [rightCheck, h]

theorem rightCheck_left_none (self : CoordinateCrossingDetector) (car : TrackedCar)
    (n x : Int) (p : Option Int) (c : ℚ)
    (h : car.left_crossing_frame = none) :
    rightCheck self car n x p c = (car, Except.ok []) := by
  simp [rightCheck, h]

/-- `leftCheck` never touches `right_crossing_frame`, and touches
`left_crossing_frame` only from `None` to the current frame number. -/
theorem leftCheck_spec (self : CoordinateCrossingDetector) (car : TrackedCar)
    (n x : Int) (p : Option Int) (c : ℚ) :
    (leftCheck self car n x p c).1.right_crossing_frame = car.right_crossing_frame ∧
    ((leftCheck self car n x p c).1.left_crossing_frame = car.left_crossing_frame ∨
      (car.left_crossing_frame = none ∧
        (leftCheck self car n x p c).1.left_crossing_frame = some n)) := by
  unfold leftCheck
  cases hl : car.left_crossing_frame with
  | some f => simp [hl]
  | none =>
    cases p with
    | none => simp [hl]
    | some q =>
      by_cases hc : q < self.left_coordinate ∧ self.left_coordinate ≤ x
      · simp [hc, mkEventRightmost_error, hl]
      · simp [hc, hl]

/-- `rightCheck` never touches `left_crossing_frame`, and touches
`right_crossing_frame` only from `None` (and only once left is set) to the
current frame number. -/
theorem rightCheck_spec (self : CoordinateCrossingDetector) (car : TrackedCar)
    (n x : Int) (p : Option Int) (c : ℚ) :
    (rightCheck self car n x p c).1.left_crossing_frame = car.left_crossing_frame ∧
    ((rightCheck self car n x p c).1.right_crossing_frame = car.right_crossing_frame ∨
      (car.left_crossing_frame.isSome ∧ car.right_crossing_frame = none ∧
        (rightCheck self car n x p c).1.right_crossing_frame = some n)) := by
  unfold rightCheck
  by_cases hg : car.left_crossing_frame.isSome ∧ car.right_crossing_frame = none
  · rw [if_pos hg]
    cases p with
    | none => exact ⟨rfl, Or.inl rfl⟩
    | some q =>
      by_cases hc : q < self.right_coordinate ∧ self.right_coordinate ≤ x
      · simp [if_pos hc, mkEventRightmost_error, hg.1, hg.2]
      · simp [if_neg hc]
  · rw [if_neg hg]
    exact ⟨rfl, Or.inl rfl⟩

/-- `leftCheck_spec`, phrased on an equation for the returned pair. -/
theorem leftCheck_pair (self : CoordinateCrossingDetector) (car : TrackedCar)
    (n x : Int) (p : Option Int) (c : ℚ) (car1 : TrackedCar)
    (r : Except String (List CoordinateCrossingEvent))
    (h : leftCheck self car n x p c = (car1, r)) :
    car1.right_crossing_frame = car.right_crossing_frame ∧
    (car1.left_crossing_frame = car.left_crossing_frame ∨
      (car.left_crossing_frame = none ∧ car1.left_crossing_frame = some n)) := by
  have hs := leftCheck_spec self car n x p c
  rw [h] at hs
  exact hs

/-- `rightCheck_spec`, phrased on an equation for the returned pair. -/
theorem rightCheck_pair (self : CoordinateCrossingDetector) (car : TrackedCar)
    (n x : Int) (p : Option Int) (c : ℚ) (car1 : TrackedCar)
    (r : Except String (List CoordinateCrossingEvent))
    (h : rightCheck self car n x p c = (car1, r)) :
    car1.left_crossing_frame = car.left_crossing_frame ∧
    (car1.right_crossing_frame = car.right_crossing_frame ∨
      (car.left_crossing_frame.isSome ∧ car.right_crossing_frame = none ∧
        car1.right_crossing_frame = some n)) := by
  have hs := rightCheck_spec self car n x p c
  rw [h] at hs
  exact hs

/-- State effect of one `detect_crossings` call: `left_crossing_frame` is
either unchanged or set (from `None`) to the current frame number, and
`right_crossing_frame` is either unchanged or set (from `None`, with left
set in the final state) to the current frame number. -/
theorem detect_crossings_spec (self : CoordinateCrossingDetector)
    (car : TrackedCar) (n : Int) :
    ((self.detect_crossings car n).1.left_crossing_frame = car.left_crossing_frame ∨
      (car.left_crossing_frame = none ∧
        (self.detect_crossings car n).1.left_crossing_frame = some n)) ∧
    ((self.detect_crossings car n).1.right_crossing_frame = car.right_crossing_frame ∨
      ((self.detect_crossings car n).1.left_crossing_frame.isSome ∧
        car.right_crossing_frame = none ∧
        (self.detect_crossings car n).1.right_crossing_frame = some n)) := by
  unfold CoordinateCrossingDetector.detect_crossings
  split
  · exact ⟨Or.inl rfl, Or.inl rfl⟩
  · dsimp only
    split
    · next car1 e hL =>
        have hLs := leftCheck_pair _ _ _ _ _ _ _ _ hL
        exact ⟨hLs.2, Or.inl hLs.1⟩
    · next car1 evs1 hL =>
        have hLs := leftCheck_pair _ _ _ _ _ _ _ _ hL
        split
        · next car2 e hR =>
            have hRs := rightCheck_pair _ _ _ _ _ _ _ _ hR
            refine ⟨hRs.1 ▸ hLs.2, ?_⟩
            rcases hRs.2 with h | ⟨h1, h2, h3⟩
            · exact Or.inl (h.trans hLs.1)
            · exact Or.inr ⟨hRs.1 ▸ h1, hLs.1 ▸ h2, h3⟩
        · next car2 evs2 hR =>
            have hRs := rightCheck_pair _ _ _ _ _ _ _ _ hR
            refine ⟨hRs.1 ▸ hLs.2, ?_⟩
            rcases hRs.2 with h | ⟨h1, h2, h3⟩
            · exact Or.inl (h.trans hLs.1)
            · exact Or.inr ⟨hRs.1 ▸ h1, hLs.1 ▸ h2, h3⟩

theorem leftCheck_fires (self : CoordinateCrossingDetector) (car : TrackedCar)
    (n x q : Int) (c : ℚ) (h0 : car.left_crossing_frame = none)
    (h1 : q < self.left_coordinate) (h2 : self.left_coordinate ≤ x) :
    leftCheck self car n x (some q) c =
      ({ car with left_crossing_frame := some n },
       Except.error "TypeError: unexpected keyword argument car_rightmost_x") := by
  simp [leftCheck, h0, h1, h2, mkEventRightmost_error]

theorem rightCheck_fires (self : CoordinateCrossingDetector) (car : TrackedCar)
    (n x q : Int) (c : ℚ) (h0 : car.left_crossing_frame.isSome)
    (h0r : car.right_crossing_frame = none)
    (h1 : q < self.right_coordinate) (h2 : self.right_coordinate ≤ x) :
    rightCheck self car n x (some q) c =
      ({ car with right_crossing_frame := some n },
       Except.error "TypeError: unexpected keyword argument car_rightmost_x") := by
  simp [rightCheck, h0, h0r, h1, h2, mkEventRightmost_error]

/-- A call on a car whose both crossing frames are already set does nothing
and returns the empty event list. -/
theorem detect_crossings_complete_noop (self : CoordinateCrossingDetector)
    (car : TrackedCar) (n a b : Int) (hl : car.left_crossing_frame = some a)
    (hr : car.right_crossing_frame = some b) :
    self.detect_crossings car n = (car, Except.ok []) := by
  unfold CoordinateCrossingDetector.detect_crossings
  split
  · rfl
  · dsimp only
    rw [leftCheck_left_some _ _ _ _ _ _ a hl]
    dsimp only
    rw [rightCheck_right_some _ _ _ _ _ _ b hr]
    rfl

theorem foldl_add_detection_frames (ds : List DetectionResult) (car : TrackedCar) :
    (ds.foldl TrackedCar.add_detection car).left_crossing_frame =
        car.left_crossing_frame ∧
      (ds.foldl TrackedCar.add_detection car).right_crossing_frame =
        car.right_crossing_frame := by
  induction ds generalizing car with
  | nil => exact ⟨rfl, rfl⟩
  | cons d ds ih =>
    simpa [List.foldl_cons, TrackedCar.add_detection] using ih (car.add_detection d)

theorem crossingStep_left_some (self : CoordinateCrossingDetector) (car : TrackedCar)
    (s : List DetectionResult × Int) (f : Int) (h : car.left_crossing_frame = some f) :
    (crossingStep self car s).left_crossing_frame = some f := by
  unfold crossingStep
  have hfold := (foldl_add_detection_frames s.1 car).1
  rcases (detect_crossings_spec self (s.1.foldl TrackedCar.add_detection car) s.2).1 with
    h1 | ⟨h1, _⟩
  · rw [h1, hfold, h]
  · rw [hfold, h] at h1
    cases h1

theorem crossingStep_right_some (self : CoordinateCrossingDetector) (car : TrackedCar)
    (s : List DetectionResult × Int) (f : Int) (h : car.right_crossing_frame = some f) :
    (crossingStep self car s).right_crossing_frame = some f := by
  unfold crossingStep
  have hfold := (foldl_add_detection_frames s.1 car).2
  rcases (detect_crossings_spec self (s.1.foldl TrackedCar.add_detection car) s.2).2 with
    h1 | ⟨_, h1, _⟩
  · rw [h1, hfold, h]
  · rw [hfold, h] at h1
    cases h1

theorem crossingStep_inv (self : CoordinateCrossingDetector) (car : TrackedCar)
    (s : List DetectionResult × Int)
    (h : car.right_crossing_frame.isSome → car.left_crossing_frame.isSome) :
    (crossingStep self car s).right_crossing_frame.isSome →
      (crossingStep self car s).left_crossing_frame.isSome := by
  intro hr
  unfold crossingStep at hr ⊢
  have hfl := (foldl_add_detection_frames s.1 car).1
  have hfr := (foldl_add_detection_frames s.1 car).2
  have hspec := detect_crossings_spec self (s.1.foldl TrackedCar.add_detection car) s.2
  rcases hspec.2 with h2 | ⟨h2a, _, _⟩
  · rw [h2, hfr] at hr
    have hl := h hr
    rcases hspec.1 with h1 | ⟨_, h1b⟩
    · rw [h1, hfl]
      exact hl
    · rw [h1b]
      rfl
  · exact h2a

theorem runCrossings_left_some (self : CoordinateCrossingDetector) (car : TrackedCar)
    (steps : List (List DetectionResult × Int)) (f : Int)
    (h : car.left_crossing_frame = some f) :
    (runCrossings self car steps).left_crossing_frame = some f := by
  induction steps generalizing car with
  | nil => exact h
  | cons s steps ih =>
    exact ih (crossingStep self car s) (crossingStep_left_some self car s f h)

theorem runCrossings_right_some (self : CoordinateCrossingDetector) (car : TrackedCar)
    (steps : List (List DetectionResult × Int)) (f : Int)
    (h : car.right_crossing_frame = some f) :
    (runCrossings self car steps).right_crossing_frame = some f := by
  induction steps generalizing car with
  | nil => exact h
  | cons s steps ih =>
    exact ih (crossingStep self car s) (crossingStep_right_some self car s f h)

theorem runCrossings_inv (self : CoordinateCrossingDetector) (car : TrackedCar)
    (steps : List (List DetectionResult × Int))
    (h : car.right_crossing_frame.isSome → car.left_crossing_frame.isSome) :
    (runCrossings self car steps).right_crossing_frame.isSome →
      (runCrossings self car steps).left_crossing_frame.isSome := by
  induction steps generalizing car with
  | nil => exact h
  | cons s steps ih =>
    exact ih (crossingStep self car s) (crossingStep_inv self car s h)

/-- C2: over any sequence of `detect_crossings` calls (each preceded by any
detections appended to the identity), a set `left_crossing_frame` is never
changed, a set `right_crossing_frame` is never changed,
`right_crossing_frame` is never set while `left_crossing_frame` is unset,
and once both are set a call returns the empty event list leaving the car
untouched. -/
theorem crossing_frames_monotone (self : CoordinateCrossingDetector)
    (car : TrackedCar) (steps : List (List DetectionResult × Int)) :
    (∀ f, car.left_crossing_frame = some f →
      (runCrossings self car steps).left_crossing_frame = some f) ∧
    (∀ f, car.right_crossing_frame = some f →
      (runCrossings self car steps).right_crossing_frame = some f) ∧
    ((car.right_crossing_frame.isSome → car.left_crossing_frame.isSome) →
      (runCrossings self car steps).right_crossing_frame.isSome →
      (runCrossings self car steps).left_crossing_frame.isSome) ∧
    (∀ a b n, car.left_crossing_frame = some a → car.right_crossing_frame = some b →
      self.detect_crossings car n = (car, Except.ok [])) :=
  ⟨fun f h => runCrossings_left_some self car steps f h,
   fun f h => runCrossings_right_some self car steps f h,
   fun h => runCrossings_inv self car steps h,
   fun a b n hl hr => detect_crossings_complete_noop self car n a b hl hr⟩

/-- Witness for `crossing_frames_monotone` at a car with
`left_crossing_frame = 3`, `right_crossing_frame = 5`. -/
theorem crossing_frames_monotone_witness :
    (runCrossings detector100_500 carBoth [([dLow], 7)]).left_crossing_frame = some 3 ∧
    (runCrossings detector100_500 carBoth [([dLow], 7)]).right_crossing_frame = some 5 ∧
    (runCrossings detector100_500 carBoth [([dLow], 7)]).left_crossing_frame.isSome ∧
    detector100_500.detect_crossings carBoth 9 = (carBoth, Except.ok []) := by
  have h := crossing_frames_monotone detector100_500 carBoth [([dLow], 7)]
  refine ⟨h.1 3 rfl, h.2.1 5 rfl, ?_, h.2.2.2 3 5 9 rfl rfl⟩
  exact h.2.2.1 (fun _ => rfl) (by rw [h.2.1 5 rfl]; rfl)

/-- C5: a call on an identity whose history has exactly one detection emits
no event and leaves the car unchanged, wherever its `x2` lies relative to
the coordinates. -/
theorem detect_crossings_first_detection_no_event (self : CoordinateCrossingDetector)
    (car : TrackedCar) (d : DetectionResult) (n : Int)
    (h : car.detections = [d]) :
    self.detect_crossings car n = (car, Except.ok []) := by
  unfold CoordinateCrossingDetector.detect_crossings
  rw [h]
  simp [leftCheck_prev_none, rightCheck_prev_none]

/-- Witness for `detect_crossings_first_detection_no_event`: a first
detection already past the left line (`x2 = 110 ≥ 100`) fires nothing. -/
theorem detect_crossings_first_detection_no_event_witness :
    detector100_500.detect_crossings ((mkTrackedCar 3).add_detection dHigh) 0 =
      ((mkTrackedCar 3).add_detection dHigh, Except.ok []) :=
  detect_crossings_first_detection_no_event detector100_500
    ((mkTrackedCar 3).add_detection dHigh) dHigh 0 rfl

/-- C8: `detect_crossings` is not atomic on error.  When a transition is
observed, the crossing frame is assigned before the event constructor is
called; the constructor call supplies the keyword `car_rightmost_x` while
the dataclass field is `car_center_x`, so it raises, and the call
propagates the error with the crossing frame already permanently set and
no event list returned.  Both sides behave this way. -/
theorem detect_crossings_sets_frame_before_raising
    (self : CoordinateCrossingDetector) (car : TrackedCar)
    (ds : List DetectionResult) (dprev dcur : DetectionResult) (n : Int)
    (hdet : car.detections = (ds ++ [dprev]) ++ [dcur]) :
    (car.left_crossing_frame = none →
      dprev.bounding_box.x2 < self.left_coordinate →
      self.left_coordinate ≤ dcur.bounding_box.x2 →
      self.detect_crossings car n =
        ({ car with left_crossing_frame := some n },
         Except.error "TypeError: unexpected keyword argument car_rightmost_x")) ∧
    (∀ f, car.left_crossing_frame = some f → car.right_crossing_frame = none →
      dprev.bounding_box.x2 < self.right_coordinate →
      self.right_coordinate ≤ dcur.bounding_box.x2 →
      self.detect_crossings car n =
        ({ car with right_crossing_frame := some n },
         Except.error "TypeError: unexpected keyword argument car_rightmost_x")) := by
  have hgl : car.detections.getLast? = some dcur := by
    rw [hdet]
    exact List.getLast?_concat _
  have hlen : 1 < car.detections.length := by
    rw [hdet]
    simp
  have hprev : (car.detections.dropLast.getLast?).map (fun d => d.bounding_box.x2) =
      some dprev.bounding_box.x2 := by
    rw [hdet, List.dropLast_concat, List.getLast?_concat]
    rfl
  constructor
  · intro h0 h1 h2
    unfold CoordinateCrossingDetector.detect_crossings
    rw [hgl]
    dsimp only
    rw [if_pos hlen, hprev, leftCheck_fires self car n _ _ _ h0 h1 h2]
  · intro f hf h0 h1 h2
    unfold CoordinateCrossingDetector.detect_crossings
    rw [hgl]
    dsimp only
    rw [if_pos hlen, hprev, leftCheck_left_some _ _ _ _ _ _ f hf]
    dsimp only
    rw [rightCheck_fires self car n _ _ _ (by rw [hf]; rfl) h0 h1 h2]

/-- Witness for `detect_crossings_sets_frame_before_raising`, on both
sides: the left transition 90 → 110 over the line at 100, and (for a car
with left already set) the transition 490 → 510 over the line at 500. -/
theorem detect_crossings_sets_frame_before_raising_witness :
    detector100_500.detect_crossings tcar1 1 =
      ({ tcar1 with left_crossing_frame := some 1 },
       Except.error "TypeError: unexpected keyword argument car_rightmost_x") ∧
    detector100_500.detect_crossings tcarR 3 =
      ({ tcarR with right_crossing_frame := some 3 },
       Except.error "TypeError: unexpected keyword argument car_rightmost_x") := by
  constructor
  · exact (detect_crossings_sets_frame_before_raising detector100_500 tcar1 [] dLow dHigh 1
      rfl).1 rfl (by norm_num [dLow, detector100_500]) (by norm_num [dHigh, detector100_500])
  · exact (detect_crossings_sets_frame_before_raising detector100_500 tcarR [] dMid dPast 3
      rfl).2 1 rfl rfl (by norm_num [dMid, detector100_500]) (by norm_num [dPast, detector100_500])

/-- C1 evaluated on the code: at the left-transition input of the
repository's own unit test `test_detect_left_crossing_transition` (which
asserts one left event is returned), the code as written instead raises
`TypeError` from the event constructor call, with `left_crossing_frame`
already set. -/
theorem detect_crossings_left_transition_eval :
    detector100_500.detect_crossings tcar1 1 =
      ({ tcar1 with left_crossing_frame := some 1 },
       Except.error "TypeError: unexpected keyword argument car_rightmost_x") := by
  rfl

/-! Lemmas and claims about the embedded speed calculator. -/

theorem speed_calculate_err (self : SpeedCalculator) (l r t : Int) (c : ℚ)
    (h : r - l ≤ 0) :
    self.calculate l r t c = Except.error "ValueError: frame_count must be > 0" := by
  unfold SpeedCalculator.calculate
  rw [if_pos h]

theorem speed_calculate_ok (self : SpeedCalculator) (hfps : 0 < self.fps)
    (hd : 0 ≤ self.distance_meters) (l r t : Int) (c : ℚ) (h : l < r) :
    self.calculate l r t c = Except.ok
      { speed_kmh := self.distance_meters / (((r - l : Int) : ℚ) / self.fps) * (36 / 10)
        speed_ms := self.distance_meters / (((r - l : Int) : ℚ) / self.fps)
        frame_count := r - l
        time_seconds := ((r - l : Int) : ℚ) / self.fps
        distance_meters := self.distance_meters
        left_crossing_frame := l
        right_crossing_frame := r
        track_id := t
        confidence := c
        is_valid := true } := by
  have hfc : ¬(r - l ≤ 0) := by omega
  have htq : (0 : ℚ) < ((r - l : Int) : ℚ) := by
    exact_mod_cast (by omega : (0 : Int) < r - l)
  have ht : (0 : ℚ) < ((r - l : Int) : ℚ) / self.fps := div_pos htq hfps
  have hms : (0 : ℚ) ≤ self.distance_meters / (((r - l : Int) : ℚ) / self.fps) :=
    div_nonneg hd ht.le
  have hkmh : (0 : ℚ) ≤
      self.distance_meters / (((r - l : Int) : ℚ) / self.fps) * (36 / 10) :=
    mul_nonneg hms (by norm_num)
  unfold SpeedCalculator.calculate SpeedMeasurement.post_init
  rw [if_neg hfc]
  push_cast at ht hkmh
  simp [hfc, not_le.mpr ht, not_lt.mpr hkmh]

theorem calculate_from_incomplete (self : SpeedCalculator) (car : TrackedCar)
    (h : car.is_complete = false) :
    self.calculate_from_tracked_car car =
      Except.error "ValueError: TrackedCar must have crossed both coordinates" := by
  unfold SpeedCalculator.calculate_from_tracked_car
  unfold TrackedCar.is_complete at h
  cases hl : car.left_crossing_frame with
  | none => cases hr : car.right_crossing_frame <;> rfl
  | some f =>
    cases hr : car.right_crossing_frame with
    | none => rfl
    | some g =>
      rw [hl, hr] at h
      simp at h

theorem calculate_from_badorder (self : SpeedCalculator) (car : TrackedCar)
    (l r : Int) (hl : car.left_crossing_frame = some l)
    (hr : car.right_crossing_frame = some r) (hle : r ≤ l) :
    self.calculate_from_tracked_car car =
      Except.error
        "ValueError: Right crossing frame must be greater than left crossing frame" := by
  unfold SpeedCalculator.calculate_from_tracked_car
  rw [hl, hr]
  dsimp only
  rw [if_pos hle]

/-- C3: for a calculator built from a validated configuration (`fps > 0`,
`distance > 0`, enforced by `Configuration._validate`), `calculate` fails
with an invalid-measurement error exactly when
`right_frame - left_frame ≤ 0` — in particular at `(30, 0)` and `(10, 10)` —
and `calculate_from_tracked_car` fails when the car is not `is_complete()`
or when `right_crossing_frame ≤ left_crossing_frame`. -/
theorem speed_calculate_fails_iff_nonpositive (self : SpeedCalculator)
    (hfps : 0 < self.fps) (hd : 0 ≤ self.distance_meters) :
    (∀ l r t c, (∃ m, self.calculate l r t c = Except.ok m) ↔ l < r) ∧
    (∃ e, self.calculate 30 0 1 (85/100) = Except.error e) ∧
    (∃ e, self.calculate 10 10 1 (85/100) = Except.error e) ∧
    (∀ car, car.is_complete = false →
      ∃ e, self.calculate_from_tracked_car car = Except.error e) ∧
    (∀ car l r, car.left_crossing_frame = some l →
      car.right_crossing_frame = some r → r ≤ l →
      ∃ e, self.calculate_from_tracked_car car = Except.error e) := by
  refine ⟨?_, ⟨_, speed_calculate_err self 30 0 1 _ (by omega)⟩,
    ⟨_, speed_calculate_err self 10 10 1 _ (by omega)⟩,
    fun car h => ⟨_, calculate_from_incomplete self car h⟩,
    fun car l r hl hr hle => ⟨_, calculate_from_badorder self car l r hl hr hle⟩⟩
  intro l r t c
  constructor
  · rintro ⟨m, hm⟩
    by_contra hlt
    rw [speed_calculate_err self l r t c (by omega)] at hm
    cases hm
  · intro hlt
    exact ⟨_, speed_calculate_ok self hfps hd l r t c hlt⟩

/-- Witness for `speed_calculate_fails_iff_nonpositive` at the calculator
built from `distance = 200 cm`, `fps = 30`. -/
theorem speed_calculate_fails_iff_nonpositive_witness :
    (∃ m, (SpeedCalculator.ofConfig config200_30).calculate 0 30 1 (85/100) =
      Except.ok m) ∧
    (∃ e, (SpeedCalculator.ofConfig config200_30).calculate 30 0 1 (85/100) =
      Except.error e) ∧
    (∃ e, (SpeedCalculator.ofConfig config200_30).calculate 10 10 1 (85/100) =
      Except.error e) ∧
    (∃ e, (SpeedCalculator.ofConfig config200_30).calculate_from_tracked_car
      (mkTrackedCar 1) = Except.error e) ∧
    (∃ e, (SpeedCalculator.ofConfig config200_30).calculate_from_tracked_car carBad =
      Except.error e) := by
  have h := speed_calculate_fails_iff_nonpositive (SpeedCalculator.ofConfig config200_30)
    (by norm_num [SpeedCalculator.ofConfig, config200_30])
    (by norm_num [SpeedCalculator.ofConfig, config200_30])
  exact ⟨(h.1 0 30 1 (85/100)).mpr (by omega), h.2.1, h.2.2.1,
    h.2.2.2.1 (mkTrackedCar 1) rfl, h.2.2.2.2 carBad 5 2 rfl rfl (by omega)⟩

/-- C4: for a validated configuration and `left_frame < right_frame`,
`calculate` returns a measurement with
`frame_count = right - left`, `time_seconds = frame_count / fps`,
`distance_meters = distance / 100`, `speed_ms = distance_meters /
time_seconds`, `speed_kmh = speed_ms * 3.6`, `is_valid = True`, and the
confidence passed through unchanged. -/
theorem speed_calculate_formula (config : Configuration) (hd : 0 < config.distance)
    (hfps : 0 < config.fps) (l r t : Int) (c : ℚ) (h : l < r) :
    ∃ m, (SpeedCalculator.ofConfig config).calculate l r t c = Except.ok m ∧
      m.frame_count = r - l ∧
      m.time_seconds = ((r - l : Int) : ℚ) / config.fps ∧
      m.distance_meters = config.distance / 100 ∧
      m.speed_ms = m.distance_meters / m.time_seconds ∧
      m.speed_kmh = m.speed_ms * (36 / 10) ∧
      m.is_valid = true ∧
      m.confidence = c := by
  refine ⟨_, speed_calculate_ok (SpeedCalculator.ofConfig config) hfps
    (div_nonneg hd.le (by norm_num)) l r t c h, rfl, rfl, rfl, rfl, rfl, rfl, rfl⟩

/-- Witness for `speed_calculate_formula`: the round-trip case
`distance = 200 cm`, `fps = 30`, `left = 0`, `right = 30` gives
`time_seconds = 1`, `speed_ms = 2`, `speed_kmh = 7.2` exactly (hence
within ±0.01). -/
theorem speed_calculate_formula_witness :
    ∃ m, (SpeedCalculator.ofConfig config200_30).calculate 0 30 1 (85/100) =
        Except.ok m ∧
      m.time_seconds = 1 ∧ m.speed_ms = 2 ∧ |m.speed_kmh - 72/10| ≤ 1/100 ∧
      m.is_valid = true ∧ m.confidence = 85/100 := by
  obtain ⟨m, hm, hfc, hts, hdm, hms, hkmh, hv, hc⟩ :=
    speed_calculate_formula config200_30 (by norm_num [config200_30])
      (by norm_num [config200_30]) 0 30 1 (85/100) (by omega)
  have hts1 : m.time_seconds = 1 := by
    rw [hts]
    norm_num [config200_30]
  have hms2 : m.speed_ms = 2 := by
    rw [hms, hdm, hts1]
    norm_num [config200_30]
  refine ⟨m, hm, hts1, hms2, ?_, hv, hc⟩
  rw [hkmh, hms2]
  norm_num

/-! Lemmas and claims about the embedded IoU. -/

/-- `calculate_iou` always lands in `[0, 1]`.  The one Python operation in
its body that could raise — the division — is guarded by the `union == 0`
early return, and when the division is reached the intersection is
positive and no larger than the union. -/
theorem calculate_iou_bounds (a b : DetectionResult) :
    0 ≤ calculate_iou a b ∧ calculate_iou a b ≤ 1 := by
  unfold calculate_iou BoundingBox.width BoundingBox.height
  dsimp only
  by_cases hg :
      min a.bounding_box.x2 b.bounding_box.x2 ≤ max a.bounding_box.x1 b.bounding_box.x1 ∨
      min a.bounding_box.y2 b.bounding_box.y2 ≤ max a.bounding_box.y1 b.bounding_box.y1
  · rw [if_pos hg]
    norm_num
  · rw [if_neg hg]
    push_neg at hg
    obtain ⟨hx, hy⟩ := hg
    have h1x : min a.bounding_box.x2 b.bounding_box.x2 -
        max a.bounding_box.x1 b.bounding_box.x1 ≤
        a.bounding_box.x2 - a.bounding_box.x1 := by omega
    have h1y : min a.bounding_box.y2 b.bounding_box.y2 -
        max a.bounding_box.y1 b.bounding_box.y1 ≤
        a.bounding_box.y2 - a.bounding_box.y1 := by omega
    have h2x : min a.bounding_box.x2 b.bounding_box.x2 -
        max a.bounding_box.x1 b.bounding_box.x1 ≤
        b.bounding_box.x2 - b.bounding_box.x1 := by omega
    have h2y : min a.bounding_box.y2 b.bounding_box.y2 -
        max a.bounding_box.y1 b.bounding_box.y1 ≤
        b.bounding_box.y2 - b.bounding_box.y1 := by omega
    have hwx : 0 < min a.bounding_box.x2 b.bounding_box.x2 -
        max a.bounding_box.x1 b.bounding_box.x1 := by omega
    have hwy : 0 < min a.bounding_box.y2 b.bounding_box.y2 -
        max a.bounding_box.y1 b.bounding_box.y1 := by omega
    have hipos : 0 <
        (min a.bounding_box.x2 b.bounding_box.x2 -
          max a.bounding_box.x1 b.bounding_box.x1) *
        (min a.bounding_box.y2 b.bounding_box.y2 -
          max a.bounding_box.y1 b.bounding_box.y1) := mul_pos hwx hwy
    have hile1 :
        (min a.bounding_box.x2 b.bounding_box.x2 -
          max a.bounding_box.x1 b.bounding_box.x1) *
        (min a.bounding_box.y2 b.bounding_box.y2 -
          max a.bounding_box.y1 b.bounding_box.y1) ≤
        (a.bounding_box.x2 - a.bounding_box.x1) *
          (a.bounding_box.y2 - a.bounding_box.y1) :=
      mul_le_mul h1x h1y hwy.le (by omega)
    have hile2 :
        (min a.bounding_box.x2 b.bounding_box.x2 -
          max a.bounding_box.x1 b.bounding_box.x1) *
        (min a.bounding_box.y2 b.bounding_box.y2 -
          max a.bounding_box.y1 b.bounding_box.y1) ≤
        (b.bounding_box.x2 - b.bounding_box.x1) *
          (b.bounding_box.y2 - b.bounding_box.y1) :=
      mul_le_mul h2x h2y hwy.le (by omega)
    have hupos : 0 <
        (a.bounding_box.x2 - a.bounding_box.x1) *
          (a.bounding_box.y2 - a.bounding_box.y1) +
        (b.bounding_box.x2 - b.bounding_box.x1) *
          (b.bounding_box.y2 - b.bounding_box.y1) -
        (min a.bounding_box.x2 b.bounding_box.x2 -
          max a.bounding_box.x1 b.bounding_box.x1) *
        (min a.bounding_box.y2 b.bounding_box.y2 -
          max a.bounding_box.y1 b.bounding_box.y1) := by linarith
    have hile :
        (min a.bounding_box.x2 b.bounding_box.x2 -
          max a.bounding_box.x1 b.bounding_box.x1) *
        (min a.bounding_box.y2 b.bounding_box.y2 -
          max a.bounding_box.y1 b.bounding_box.y1) ≤
        (a.bounding_box.x2 - a.bounding_box.x1) *
          (a.bounding_box.y2 - a.bounding_box.y1) +
        (b.bounding_box.x2 - b.bounding_box.x1) *
          (b.bounding_box.y2 - b.bounding_box.y1) -
        (min a.bounding_box.x2 b.bounding_box.x2 -
          max a.bounding_box.x1 b.bounding_box.x1) *
        (min a.bounding_box.y2 b.bounding_box.y2 -
          max a.bounding_box.y1 b.bounding_box.y1) := by linarith
    rw [if_neg hupos.ne']
    constructor
    · exact div_nonneg (by exact_mod_cast hipos.le) (by exact_mod_cast hupos.le)
    · rw [div_le_one (by exact_mod_cast hupos)]
      exact_mod_cast hile

/-- A degenerate box (zero or negative width or height) on either side
makes the intersecting rectangle empty, so the IoU is exactly 0. -/
theorem calculate_iou_degenerate (a b : DetectionResult)
    (h : a.bounding_box.width ≤ 0 ∨ a.bounding_box.height ≤ 0 ∨
         b.bounding_box.width ≤ 0 ∨ b.bounding_box.height ≤ 0) :
    calculate_iou a b = 0 := by
  unfold BoundingBox.width BoundingBox.height at h
  unfold calculate_iou
  dsimp only
  rcases h with h | h | h | h <;> rw [if_pos (by omega)]

/-- Self-IoU of a box with positive width and height is exactly 1. -/
theorem calculate_iou_self (a : DetectionResult) (hw : 0 < a.bounding_box.width)
    (hh : 0 < a.bounding_box.height) : calculate_iou a a = 1 := by
  unfold BoundingBox.width at hw
  unfold BoundingBox.height at hh
  unfold calculate_iou BoundingBox.width BoundingBox.height
  dsimp only
  rw [max_self, max_self, min_self, min_self]
  rw [if_neg (by omega)]
  have harea :
      (a.bounding_box.x2 - a.bounding_box.x1) * (a.bounding_box.y2 - a.bounding_box.y1) +
        (a.bounding_box.x2 - a.bounding_box.x1) *
          (a.bounding_box.y2 - a.bounding_box.y1) -
        (a.bounding_box.x2 - a.bounding_box.x1) *
          (a.bounding_box.y2 - a.bounding_box.y1) =
      (a.bounding_box.x2 - a.bounding_box.x1) *
        (a.bounding_box.y2 - a.bounding_box.y1) := by ring
  rw [harea]
  have hpos : 0 <
      (a.bounding_box.x2 - a.bounding_box.x1) * (a.bounding_box.y2 - a.bounding_box.y1) :=
    mul_pos (by omega) (by omega)
  rw [if_neg hpos.ne']
  exact div_self (by exact_mod_cast hpos.ne')

/-- C7: `calculate_iou` is total (the only possibly-raising operation, the
division, is reached only with a nonzero union): it always returns a value
in `[0, 1]`; a degenerate box on either side gives exactly 0; and the
self-IoU of any non-degenerate box is 1. -/
theorem calculate_iou_total_bounds (a b : DetectionResult) :
    (0 ≤ calculate_iou a b ∧ calculate_iou a b ≤ 1) ∧
    (a.bounding_box.width ≤ 0 ∨ a.bounding_box.height ≤ 0 ∨
        b.bounding_box.width ≤ 0 ∨ b.bounding_box.height ≤ 0 →
      calculate_iou a b = 0) ∧
    (0 < a.bounding_box.width → 0 < a.bounding_box.height →
      calculate_iou a a = 1) :=
  ⟨calculate_iou_bounds a b, fun h => calculate_iou_degenerate a b h,
   fun hw hh => calculate_iou_self a hw hh⟩

/-- Witness for `calculate_iou_total_bounds`: against the zero-width box
`dDeg` the IoU of `dLow` is 0 (and in `[0,1]`), and the self-IoU of the
non-degenerate `dLow` is 1. -/
theorem calculate_iou_total_bounds_witness :
    (0 ≤ calculate_iou dLow dDeg ∧ calculate_iou dLow dDeg ≤ 1) ∧
    calculate_iou dLow dDeg = 0 ∧ calculate_iou dLow dLow = 1 := by
  have h := calculate_iou_total_bounds dLow dDeg
  have h2 := calculate_iou_total_bounds dLow dLow
  exact ⟨h.1,
    h.2.1 (by norm_num [dLow, dDeg, BoundingBox.width, BoundingBox.height]),
    h2.2.2 (by norm_num [dLow, BoundingBox.width])
      (by norm_num [dLow, BoundingBox.height])⟩

/-! Lemmas and claims about the embedded tracker. -/

/-- If every registry entry competes with IoU at most `b` (with skipped
entries counting as 0), the running best `(b, r)` survives the whole scan:
replacement happens only on a strictly greater IoU. -/
theorem findBestAux_stable (th : ℚ) (d : DetectionResult) (mt : List Int)
    (b : ℚ) (r : Option Int) (l : List (Int × TrackedCar))
    (h : ∀ p ∈ l, candIou d mt p ≤ b) :
    findBestAux th d mt b r l = (b, r) := by
  induction l with
  | nil => rfl
  | cons q l ih =>
    rcases q with ⟨tid, car⟩
    by_cases hm : tid ∈ mt
    · simp only [findBestAux, if_pos hm]
      exact ih fun p hp => h p (List.mem_cons_of_mem _ hp)
    · have hq := h (tid, car) (List.mem_cons_self _ _)
      unfold candIou at hq
      rw [if_neg hm] at hq
      cases hlast : car.detections.getLast? with
      | none =>
        simp only [findBestAux, if_neg hm, hlast]
        exact ih fun p hp => h p (List.mem_cons_of_mem _ hp)
      | some last_detection =>
        rw [hlast] at hq
        simp only [findBestAux, if_neg hm, hlast]
        rw [if_neg fun hc => absurd hc.1 (not_lt.mpr hq)]
        exact ih fun p hp => h p (List.mem_cons_of_mem _ hp)

/-- The scan returns the earliest entry attaining the maximal competing
IoU, provided that IoU is positive, meets the threshold, strictly exceeds
every earlier entry's IoU and is not exceeded later. -/
theorem findBestAux_first_max (th : ℚ) (d : DetectionResult) (mt : List Int)
    (v : ℚ) (t : Int) (car : TrackedCar) (l2 : List (Int × TrackedCar))
    (hv : candIou d mt (t, car) = v) (hth : th ≤ v)
    (hpost : ∀ p ∈ l2, candIou d mt p ≤ v) :
    ∀ (l1 : List (Int × TrackedCar)) (b : ℚ) (r : Option Int), 0 ≤ b → b < v →
      (∀ p ∈ l1, candIou d mt p < v) →
      (findBestAux th d mt b r (l1 ++ (t, car) :: l2)).2 = some t := by
  intro l1
  induction l1 with
  | nil =>
    intro b r hb hbv _
    have hpos : 0 < v := lt_of_le_of_lt hb hbv
    have hm : t ∉ mt := by
      intro hm
      unfold candIou at hv
      rw [if_pos hm] at hv
      exact absurd hv (ne_of_lt hpos)
    obtain ⟨last_detection, hlast⟩ : ∃ ld, car.detections.getLast? = some ld := by
      cases hl : car.detections.getLast? with
      | none =>
        unfold candIou at hv
        rw [if_neg hm, hl] at hv
        exact absurd hv (ne_of_lt hpos)
      | some ld => exact ⟨ld, rfl⟩
    have hiou : calculate_iou d last_detection = v := by
      unfold candIou at hv
      rw [if_neg hm, hlast] at hv
      exact hv
    simp only [List.nil_append, findBestAux, if_neg hm, hlast]
    rw [if_pos ⟨hiou ▸ hbv, hiou ▸ hth⟩, hiou]
    rw [findBestAux_stable th d mt v (some t) l2 hpost]
  | cons q l1 ih =>
    intro b r hb hbv hpre
    rcases q with ⟨tid, car1⟩
    have hq := hpre (tid, car1) (List.mem_cons_self _ _)
    by_cases hm : tid ∈ mt
    · simp only [List.cons_append, findBestAux, if_pos hm]
      exact ih b r hb hbv fun p hp => hpre p (List.mem_cons_of_mem _ hp)
    · cases hlast : car1.detections.getLast? with
      | none =>
        simp only [List.cons_append, findBestAux, if_neg hm, hlast]
        exact ih b r hb hbv fun p hp => hpre p (List.mem_cons_of_mem _ hp)
      | some last1 =>
        have hlt : calculate_iou d last1 < v := by
          unfold candIou at hq
          rw [if_neg hm, hlast] at hq
          exact hq
        simp only [List.cons_append, findBestAux, if_neg hm, hlast]
        by_cases hcond : b < calculate_iou d last1 ∧ th ≤ calculate_iou d last1
        · rw [if_pos hcond]
          exact ih (calculate_iou d last1) (some tid)
            (calculate_iou_bounds d last1).1 hlt
            fun p hp => hpre p (List.mem_cons_of_mem _ hp)
        · rw [if_neg hcond]
          exact ih b r hb hbv fun p hp => hpre p (List.mem_cons_of_mem _ hp)

theorem updateEntry_keys (l : List (Int × TrackedCar)) (tid : Int)
    (d : DetectionResult) :
    (updateEntry l tid d).map Prod.fst = l.map Prod.fst := by
  induction l with
  | nil => rfl
  | cons p l ih =>
    unfold updateEntry at ih ⊢
    by_cases hp : p.1 = tid <;> simp [hp, ih]

theorem matchLoop_keys (th : ℚ) (dets : List (Nat × DetectionResult)) :
    ∀ cars mt md,
      (matchLoop th dets (cars, mt, md)).1.map Prod.fst = cars.map Prod.fst := by
  induction dets with
  | nil =>
    intro cars mt md
    rfl
  | cons q dets ih =>
    intro cars mt md
    rcases q with ⟨i, d⟩
    simp only [matchLoop]
    cases hb : (findBestAux th d mt 0 none cars).2 with
    | none => exact ih cars mt md
    | some tid =>
      rw [ih (updateEntry cars tid d) (tid :: mt) (i :: md), updateEntry_keys]

theorem intRange_succ_left (a : Int) (k : Nat) :
    intRange a (a + ((k : Int) + 1)) = a :: intRange (a + 1) ((a + 1) + (k : Int)) := by
  unfold intRange
  have h1 : (a + ((k : Int) + 1) - a).toNat = k + 1 := by omega
  have h2 : ((a + 1) + (k : Int) - (a + 1)).toNat = k := by omega
  rw [h1, h2, List.range_succ_eq_map, List.map_cons, List.map_map]
  refine List.cons_eq_cons.mpr ⟨by simp, ?_⟩
  apply List.map_congr_left
  intro i _
  simp only [Function.comp_apply, Nat.succ_eq_add_one]
  push_cast
  ring

theorem intRange_append (a b c : Int) (hab : a ≤ b) (hbc : b ≤ c) :
    intRange a b ++ intRange b c = intRange a c := by
  unfold intRange
  have h : (c - a).toNat = (b - a).toNat + (c - b).toNat := by omega
  rw [h, List.range_add, List.map_append, List.map_map]
  congr 1
  apply List.map_congr_left
  intro i _
  simp only [Function.comp_apply]
  omega

theorem newTrackLoop_spec (md : List Nat) (dets : List (Nat × DetectionResult)) :
    ∀ cars (n : Int), ∃ k : Nat,
      (newTrackLoop md dets (cars, n)).1.map Prod.fst =
        cars.map Prod.fst ++ intRange n (n + (k : Int)) ∧
      (newTrackLoop md dets (cars, n)).2 = n + (k : Int) := by
  induction dets with
  | nil =>
    intro cars n
    exact ⟨0, by simp [newTrackLoop, intRange], by simp [newTrackLoop]⟩
  | cons q dets ih =>
    intro cars n
    rcases q with ⟨i, d⟩
    by_cases hm : i ∈ md
    · simp only [newTrackLoop, if_pos hm]
      exact ih cars n
    · simp only [newTrackLoop, if_neg hm]
      obtain ⟨k, h1, h2⟩ := ih (cars ++ [(n, (mkTrackedCar n).add_detection d)]) (n + 1)
      refine ⟨k + 1, ?_, ?_⟩
      · rw [h1, List.map_append]
        have : n + ((k : Int) + 1) = n + (((k + 1 : Nat) : Int)) := by push_cast; ring
        rw [← this, intRange_succ_left, List.append_assoc]
        rfl
      · rw [h2]
        push_cast
        ring

theorem update_keys (T : CarTracker) (ds : List DetectionResult) (n : Int)
    (h1 : T.tracked_cars.map Prod.fst = intRange 1 T.next_track_id)
    (h2 : 1 ≤ T.next_track_id) :
    (T.update ds n).1.tracked_cars.map Prod.fst =
      intRange 1 (T.update ds n).1.next_track_id ∧
    1 ≤ (T.update ds n).1.next_track_id := by
  unfold CarTracker.update
  by_cases he : ds.isEmpty = true
  · simp only [if_pos he]
    exact ⟨h1, h2⟩
  · simp only [if_neg he]
    obtain ⟨k, hk1, hk2⟩ := newTrackLoop_spec
      (matchLoop T.iou_threshold ds.enum (T.tracked_cars, [], [])).2.2 ds.enum
      (matchLoop T.iou_threshold ds.enum (T.tracked_cars, [], [])).1 T.next_track_id
    rw [hk1, hk2]
    constructor
    · rw [matchLoop_keys, h1]
      exact intRange_append 1 T.next_track_id (T.next_track_id + (k : Int)) h2 (by omega)
    · omega

theorem runUpdates_keys (steps : List (List DetectionResult × Int)) :
    ∀ T : CarTracker,
      T.tracked_cars.map Prod.fst = intRange 1 T.next_track_id →
      1 ≤ T.next_track_id →
      (runUpdates T steps).tracked_cars.map Prod.fst =
        intRange 1 (runUpdates T steps).next_track_id ∧
      1 ≤ (runUpdates T steps).next_track_id := by
  induction steps with
  | nil =>
    intro T h1 h2
    exact ⟨h1, h2⟩
  | cons s steps ih =>
    intro T h1 h2
    have h := update_keys T s.1 s.2 h1 h2
    exact ih (T.update s.1 s.2).1 h.1 h.2

theorem update_disjoint_new_track (T : CarTracker) (d : DetectionResult) (n : Int)
    (h : ∀ p ∈ T.tracked_cars, ∀ ld, p.2.detections.getLast? = some ld →
      calculate_iou d ld = 0) :
    (T.update [d] n).1.tracked_cars =
      T.tracked_cars ++
        [(T.next_track_id, (mkTrackedCar T.next_track_id).add_detection d)] ∧
    (T.update [d] n).1.next_track_id = T.next_track_id + 1 := by
  have hfb : findBestAux T.iou_threshold d [] 0 none T.tracked_cars = (0, none) := by
    apply findBestAux_stable
    intro p hp
    unfold candIou
    rw [if_neg (List.not_mem_nil p.1)]
    cases hl : p.2.detections.getLast? with
    | none => exact le_refl 0
    | some ld => exact le_of_eq (h p hp ld hl)
  constructor <;>
    simp [CarTracker.update, List.enum, List.enumFrom, matchLoop, hfb, newTrackLoop]

/-- C6: track ids are the next sequential integers starting at 1.  Over any
run from a fresh tracker the registry's keys are exactly
`[1, …, next_track_id - 1]` in order (so ids are strictly increasing and
never reused), and a detection spatially disjoint from every existing
identity's last box creates exactly one new track, keyed one past the
previously issued maximum, incrementing `next_track_id`. -/
theorem tracker_ids_sequential (threshold : ℚ)
    (steps : List (List DetectionResult × Int)) :
    ((runUpdates (CarTracker.init threshold) steps).tracked_cars.map Prod.fst =
        intRange 1 (runUpdates (CarTracker.init threshold) steps).next_track_id ∧
      1 ≤ (runUpdates (CarTracker.init threshold) steps).next_track_id) ∧
    (∀ (T : CarTracker) (d : DetectionResult) (n : Int),
      (∀ p ∈ T.tracked_cars, ∀ ld, p.2.detections.getLast? = some ld →
        calculate_iou d ld = 0) →
      (T.update [d] n).1.tracked_cars.map Prod.fst =
        T.tracked_cars.map Prod.fst ++ [T.next_track_id] ∧
      (T.update [d] n).1.next_track_id = T.next_track_id + 1) := by
  constructor
  · exact runUpdates_keys steps (CarTracker.init threshold)
      (by simp [CarTracker.init, intRange]) le_rfl
  · intro T d n h
    obtain ⟨h1, h2⟩ := update_disjoint_new_track T d n h
    exact ⟨by rw [h1]; simp, h2⟩

/-- Witness for `tracker_ids_sequential`: after one update with `dLow` the
registry keys are `[1]` and `next_track_id` is 2; feeding the disjoint
`dFar` appends key 2 and bumps `next_track_id` to 3. -/
theorem tracker_ids_sequential_witness :
    ((runUpdates (CarTracker.init (3/10)) [([dLow], 0)]).tracked_cars.map Prod.fst =
      intRange 1 (runUpdates (CarTracker.init (3/10)) [([dLow], 0)]).next_track_id) ∧
    ((runUpdates (CarTracker.init (3/10)) [([dLow], 0)]).update [dFar] 1).1.tracked_cars.map
        Prod.fst =
      (runUpdates (CarTracker.init (3/10)) [([dLow], 0)]).tracked_cars.map Prod.fst ++
        [(runUpdates (CarTracker.init (3/10)) [([dLow], 0)]).next_track_id] ∧
    ((runUpdates (CarTracker.init (3/10)) [([dLow], 0)]).update [dFar] 1).1.next_track_id =
      (runUpdates (CarTracker.init (3/10)) [([dLow], 0)]).next_track_id + 1 := by
  have h := tracker_ids_sequential (3/10) [([dLow], 0)]
  have hT : (runUpdates (CarTracker.init (3/10)) [([dLow], 0)]).tracked_cars =
      [(1, (mkTrackedCar 1).add_detection dLow)] := rfl
  refine ⟨h.1.1, h.2 _ dFar 1 ?_⟩
  intro p hp ld hld
  rw [hT, List.mem_singleton] at hp
  subst hp
  simp only [TrackedCar.add_detection, mkTrackedCar] at hld
  simp only [List.nil_append, List.getLast?_singleton, Option.some.injEq] at hld
  subst hld
  norm_num [calculate_iou, dFar, dLow]

/-- C9: the greedy per-detection match is deterministic on ties.  The inner
best-candidate scan of `update` iterates the registry in insertion order
and replaces the running best only on a strictly greater IoU, so when
several not-yet-matched identities share the maximal IoU (at or above the
threshold) the detection is matched to the one inserted earliest — with
sequential ids, the lowest `track_id`. -/
theorem tracker_greedy_tie_break_earliest (iou_threshold : ℚ)
    (d : DetectionResult) (matched : List Int)
    (l1 l2 : List (Int × TrackedCar)) (t : Int) (car : TrackedCar) (v : ℚ)
    (hv : candIou d matched (t, car) = v) (hpos : 0 < v)
    (hth : iou_threshold ≤ v)
    (hpre : ∀ p ∈ l1, candIou d matched p < v)
    (hpost : ∀ p ∈ l2, candIou d matched p ≤ v) :
    (findBestAux iou_threshold d matched 0 none (l1 ++ (t, car) :: l2)).2 = some t :=
  findBestAux_first_max iou_threshold d matched v t car l2 hv hth hpost l1 0 none
    le_rfl hpos hpre

/-- Witness for `tracker_greedy_tie_break_earliest`: two registry entries
with identical last boxes both have IoU 1 with the incoming detection; the
scan picks the earlier entry, id 1, not id 2. -/
theorem tracker_greedy_tie_break_earliest_witness :
    (findBestAux (3/10) dLow [] 0 none
      [(1, (mkTrackedCar 1).add_detection dLow),
       (2, (mkTrackedCar 2).add_detection dLow)]).2 = some 1 := by
  have hv : candIou dLow [] (1, (mkTrackedCar 1).add_detection dLow) = 1 := by
    norm_num [candIou, mkTrackedCar, TrackedCar.add_detection, calculate_iou, dLow,
      BoundingBox.width, BoundingBox.height]
  have hpost : ∀ p ∈ [(2, (mkTrackedCar 2).add_detection dLow)],
      candIou dLow [] p ≤ 1 := by
    intro p hp
    rw [List.mem_singleton] at hp
    subst hp
    norm_num [candIou, mkTrackedCar, TrackedCar.add_detection, calculate_iou, dLow,
      BoundingBox.width, BoundingBox.height]
  exact tracker_greedy_tie_break_earliest (3/10) dLow []
    [] [(2, (mkTrackedCar 2).add_detection dLow)] 1
    ((mkTrackedCar 1).add_detection dLow) 1 hv (by norm_num) (by norm_num)
    (by intro p hp; cases hp) hpost

/-- C10: `CarTracker.update` never reads its `frame_number` parameter —
the per-track frame bookkeeping comes from each detection's own
`frame_number` field through `add_detection` — so two calls with the same
detections and different frame numbers produce identical trackers and
identical return values. -/
theorem tracker_update_ignores_frame_number (T : CarTracker)
    (detections : List DetectionResult) (n1 n2 : Int) :
    T.update detections n1 = T.update detections n2 := rfl
